import Mathlib

/-!
Verification of the BlueGauge device-state reconciliation and watcher engine.

This file gives a shallow embedding of the core of the repository:

* the data model of `src/bluetooth/info.rs` (`BluetoothType`, `BluetoothInfo`);
* the reconciliation pass `compare_bt_info_to_send_notifications`
  (`src/bluetooth/info.rs`), with Rust `HashSet`s modelled as lists carrying
  set semantics (membership-based difference and extensional equality), and
  the notification thread body modelled as a pure fold producing the list of
  emitted events together with the updated notified-low-battery set;
* the snapshot builders `get_ble_info` / `get_btc_info` and the dispatcher
  `get_bluetooth_info` (`src/bluetooth/ble.rs`, `src/bluetooth/btc.rs`,
  `src/bluetooth/info.rs`), with fallible platform queries modelled as
  `Except`-valued fields of abstract device records;
* the PnP enumeration retry loop of `get_btc_info` (`src/bluetooth/btc.rs`);
* the caller step of `UserEvent::UpdateTray` in `src/main.rs`, including the
  handling of the `force_update` flag;
* the watcher lifecycle `listen_bluetooth_device_info` and
  `ThreadManager::cleanup` (`src/bluetooth/listen.rs`), as a state machine
  over a world that records every spawned watch thread, where `join` on a
  handle whose exit flag has been stored returns only once the cooperatively
  cancelled thread has terminated.
-/

namespace BlueGauge

/-! ## Data model (src/bluetooth/info.rs lines 19-32) -/

/-- `BluetoothType` from info.rs: classic carries the PnP instance id and the
48-bit address, low energy carries the address. -/
inductive BluetoothType where
  | classic (instanceId : String) (addr : Nat)
  | lowEnergy (addr : Nat)
  deriving DecidableEq

/-- `BluetoothInfo` from info.rs. `battery` is a `u8` percentage; `address`
is the 12-digit uppercase-hex rendering of the 48-bit address, the form the
record consumers (listen.rs line 253, ble.rs line 68) use. Equality covers
all fields, as the derived Rust `PartialEq`/`Hash` do. -/
structure BluetoothInfo where
  name : String
  battery : Nat
  status : Bool
  address : String
  btype : BluetoothType
  deriving DecidableEq

/-! ## HashSet model

Rust `HashSet`s are modelled as lists; all set operations are
membership-based so that a list stands for the set of its elements. -/

/-- `HashSet::difference` : elements of `a` not in `b`. -/
def setDiff (a b : List BluetoothInfo) : List BluetoothInfo :=
  a.filter (fun x => decide (x ∉ b))

/-- `HashSet` equality: extensional equality of the element sets. -/
def setEqv (a b : List BluetoothInfo) : Bool :=
  decide (∀ x ∈ a, x ∈ b) && decide (∀ x ∈ b, x ∈ a)

/-- `HashSet::insert` for the accumulated snapshot sets. -/
def hsInsertInfo (s : List BluetoothInfo) (x : BluetoothInfo) : List BluetoothInfo :=
  if x ∈ s then s else s ++ [x]

/-- `HashSet<String>::contains` for the notified-low-battery set. -/
def hsContains (s : List String) (x : String) : Bool :=
  decide (x ∈ s)

/-- `HashSet<String>::insert` for the notified-low-battery set. -/
def hsInsert (s : List String) (x : String) : List String :=
  if x ∈ s then s else x :: s

/-- `HashSet<String>::remove` for the notified-low-battery set. -/
def hsRemove (s : List String) (x : String) : List String :=
  s.filter (fun y => decide (y ≠ x))

/-! ## Notification configuration (src/config.rs getters used at
info.rs lines 103-108) -/

/-- The configuration values read by the reconciliation pass. -/
structure NotifyConfig where
  lowBattery : Nat
  mute : Bool
  disconnection : Bool
  reconnection : Bool
  added : Bool
  removed : Bool
  deriving DecidableEq

/-- The typed events the notification thread can emit (the `notify` calls at
info.rs lines 129, 142, 150, 167, 181, keyed by the record they report). -/
inductive BTEvent where
  | lowBattery (dev : BluetoothInfo)
  | disconnected (dev : BluetoothInfo)
  | reconnected (dev : BluetoothInfo)
  | added (dev : BluetoothInfo)
  | removed (dev : BluetoothInfo)
  deriving DecidableEq

/-! ## Reconciliation pass (info.rs lines 82-195)

The spawned thread body (lines 110-190) is a nested loop over the two
difference sets; it is embedded as a pure fold that returns the emitted
events in visit order together with the final notified set. -/

/-- Body of the inner loop (info.rs lines 116-188) for one pair
`(old, new)`. -/
def processPair (cfg : NotifyConfig) (changeOld changeNew : List BluetoothInfo)
    (notified : List String) (old new : BluetoothInfo) :
    List BTEvent × List String :=
  if old.address = new.address then
    let batteryStep :=
      if new.battery ≠ old.battery then
        let isLow := decide (new.battery < cfg.lowBattery)
        let wasLow := hsContains notified new.address
        match wasLow, isLow with
        | false, true => ([BTEvent.lowBattery new], hsInsert notified new.address)
        | true, false => ([], hsRemove notified new.address)
        | _, _ => ([], notified)
      else ([], notified)
    let statusEvents :=
      if new.status ≠ old.status then
        (if cfg.disconnection && !new.status then [BTEvent.disconnected new] else []) ++
        (if cfg.reconnection && new.status then [BTEvent.reconnected new] else [])
      else []
    (batteryStep.1 ++ statusEvents, batteryStep.2)
  else
    let addEvents :=
      if cfg.added then
        if setDiff changeNew changeOld ≠ [] then [BTEvent.added new] else []
      else []
    let removeEvents :=
      if cfg.removed then
        if setDiff changeOld changeNew ≠ [] then [BTEvent.removed old] else []
      else []
    (addEvents ++ removeEvents, notified)

/-- The inner `for new in &change_new_bt_info` loop for a fixed `old`. -/
def runInner (cfg : NotifyConfig) (changeOld changeNew : List BluetoothInfo)
    (old : BluetoothInfo) :
    List BluetoothInfo → List String → List BTEvent × List String
  | [], notified => ([], notified)
  | n :: rest, notified =>
    let p := processPair cfg changeOld changeNew notified old n
    let r := runInner cfg changeOld changeNew old rest p.2
    (p.1 ++ r.1, r.2)

/-- The outer `for old in &change_old_bt_info` loop. -/
def runOuter (cfg : NotifyConfig) (changeOld changeNew : List BluetoothInfo) :
    List BluetoothInfo → List String → List BTEvent × List String
  | [], notified => ([], notified)
  | o :: rest, notified =>
    let p := runInner cfg changeOld changeNew o changeNew notified
    let r := runOuter cfg changeOld changeNew rest p.2
    (p.1 ++ r.1, r.2)

/-- The complete spawned thread body (info.rs lines 110-190). -/
def notifyPass (cfg : NotifyConfig) (changeOld changeNew : List BluetoothInfo)
    (notified : List String) : List BTEvent × List String :=
  runOuter cfg changeOld changeNew changeOld notified

/-- The state the pass reads and writes through `Arc<Mutex<..>>`:
the notified-low-battery set and the canonical snapshot. -/
structure CompareState where
  notifiedLowBattery : List String
  oldBtInfo : List BluetoothInfo
  deriving DecidableEq

/-- `compare_bt_info_to_send_notifications` (info.rs lines 82-195).
Returns `none` for the `return None` (no update needed) path, in which case
the state is untouched; otherwise the emitted events and the state after the
thread body ran and `*old_bt_info = new_bt_info.clone()` executed. -/
def compareBtInfoToSendNotifications (cfg : NotifyConfig) (st : CompareState)
    (newBtInfo : List BluetoothInfo) : Option (List BTEvent) × CompareState :=
  let changeOld := setDiff st.oldBtInfo newBtInfo
  let changeNew := setDiff newBtInfo st.oldBtInfo
  if setEqv changeOld changeNew then
    (none, st)
  else
    let p := notifyPass cfg changeOld changeNew st.notifiedLowBattery
    (some p.1, { notifiedLowBattery := p.2, oldBtInfo := newBtInfo })

/-! ## The UpdateTray caller step (src/main.rs lines 385-437)

On `Some` the tray UI is refreshed and the force flag is left alone; on
`None` the force flag is swapped to `false` and the UI is refreshed only
when it was set (main.rs lines 404-419). -/

/-- Result of one `UserEvent::UpdateTray` handling. -/
structure TrayStep where
  state : CompareState
  events : List BTEvent
  uiRefreshed : Bool
  forceFlag : Bool
  deriving DecidableEq

/-- The `UserEvent::UpdateTray` arm after a snapshot was obtained. -/
def updateTrayStep (cfg : NotifyConfig) (force : Bool) (st : CompareState)
    (newBtInfo : List BluetoothInfo) : TrayStep :=
  match compareBtInfoToSendNotifications cfg st newBtInfo with
  | (some evs, st1) =>
    { state := st1, events := evs, uiRefreshed := true, forceFlag := force }
  | (none, st1) =>
    if force then
      { state := st1, events := [], uiRefreshed := true, forceFlag := false }
    else
      { state := st1, events := [], uiRefreshed := false, forceFlag := false }

/-! ## Snapshot builders

The platform Bluetooth stack is the external collaborator: a device object
is modelled by the outcomes of the queries the builders perform on it.
`Except String` stands for `anyhow::Result`. -/

/-- `{:012X}` formatting of one hex digit. -/
def hexDigit (n : Nat) : Char :=
  if n < 10 then Char.ofNat (48 + n) else Char.ofNat (55 + n)

/-- `format!("{address:012X}")`: the 12-digit uppercase-hex rendering of a
48-bit address (ble.rs line 68, listen.rs line 253). -/
def hexMac (a : Nat) : String :=
  String.mk ((List.range 12).map fun i => hexDigit (a / 16 ^ (11 - i) % 16))

/-- A `BluetoothLEDevice` as seen through the queries `process_ble_device`
performs on it (ble.rs lines 56-77): `Name()`, `get_ble_battery_level`,
`ConnectionStatus()`, `BluetoothAddress()`. -/
structure BleDevice where
  name : Except String String
  batteryLevel : Except String Nat
  connectionStatus : Except String Bool
  bluetoothAddress : Nat

/-- `process_ble_device` (ble.rs lines 56-77). -/
def processBleDevice (d : BleDevice) : Except String BluetoothInfo := do
  let name ← d.name
  let battery ← d.batteryLevel
  let status ← d.connectionStatus
  let addrU64 := d.bluetoothAddress
  pure { name := name, battery := battery, status := status,
         address := hexMac addrU64, btype := BluetoothType.lowEnergy addrU64 }

/-- One step of the per-device accumulation shared by `get_ble_info`
(ble.rs lines 42-54) and `get_btc_info` (btc.rs lines 82-88): a failed
device is skipped (its error only logged), a successful record is inserted
into the set. -/
def collectStep (acc : List BluetoothInfo) (r : Except String BluetoothInfo) :
    List BluetoothInfo :=
  match r with
  | Except.ok info => hsInsertInfo acc info
  | Except.error _ => acc

/-- The whole per-device accumulation loop. -/
def collectInfo (results : List (Except String BluetoothInfo)) :
    List BluetoothInfo :=
  results.foldl collectStep []

/-- `get_ble_info` (ble.rs lines 42-54): always `Ok`. -/
def getBleInfo (ds : List BleDevice) : Except String (List BluetoothInfo) :=
  Except.ok (collectInfo (ds.map processBleDevice))

/-- `PnpDeviceInfo` (btc.rs lines 25-29). -/
structure PnpDeviceInfo where
  address : Nat
  battery : Nat
  instanceId : String
  deriving DecidableEq

/-- The `HashMap<u64, PnpDeviceInfo>` side-channel table, modelled as an
association list keyed by the 48-bit address. -/
def PnpTable : Type := List (Nat × PnpDeviceInfo)

/-- Rust `str::trim` (btc.rs line 97): strip leading and trailing
whitespace.  (`String.trim` of the Lean library is not kernel-reducible,
so the builder could not be evaluated on concrete inputs through it.) -/
def strTrim (s : String) : String :=
  String.mk
    (((s.data.dropWhile Char.isWhitespace).reverse.dropWhile Char.isWhitespace).reverse)

/-- A `BluetoothDevice` as seen through the queries `process_btc_device`
performs on it (btc.rs lines 93-115): `Name()`, `BluetoothAddress()`,
`ConnectionStatus()`. -/
structure BtcDevice where
  name : Except String String
  bluetoothAddress : Except String Nat
  connectionStatus : Except String Bool

/-- `process_btc_device` (btc.rs lines 93-115): the PnP table is consulted
under exactly the device address; a missing entry is an error ("No matching
Bluetooth Classic Device in Pnp device"), so the device is omitted.  The
record stores the address in the hex form its consumers use
(info.rs line 30, listen.rs line 253). -/
def processBtcDevice (d : BtcDevice) (pnp : PnpTable) :
    Except String BluetoothInfo := do
  let btcName := strTrim (← d.name)
  let btcAddress ← d.bluetoothAddress
  match List.lookup btcAddress pnp with
  | none =>
    Except.error ("No matching Bluetooth Classic Device in Pnp device: " ++ btcName)
  | some i => do
    let btcStatus ← d.connectionStatus
    pure { name := btcName, battery := i.battery, status := btcStatus,
           address := hexMac btcAddress,
           btype := BluetoothType.classic i.instanceId btcAddress }

/-- `max_retries` of the PnP enumeration retry loop (btc.rs line 60). -/
def maxPnpRetries : Nat := 2

/-- The retry loop of `get_btc_info` (btc.rs lines 59-80).  `attempt n`
is the outcome of the n-th `get_pnp_devices_info()` call; between two
attempts the source sleeps for a fixed 2 seconds.  `fuel` only bounds the
recursion and is instantiated with `maxRetries`, which the loop never
exceeds. -/
def pnpRetryGo (attempt : Nat → Except String PnpTable) (maxRetries : Nat) :
    Nat → Nat → Except String PnpTable
  | _, 0 => Except.error "unreachable: the loop makes at most maxRetries calls"
  | attempts, fuel + 1 =>
    match attempt attempts with
    | Except.ok info => Except.ok info
    | Except.error e =>
      if attempts + 1 ≥ maxRetries then
        Except.error ("Trying to enumerate the pnp device twice failed: " ++ e)
      else
        pnpRetryGo attempt maxRetries (attempts + 1) fuel

/-- The `pnp_devices_info` block of `get_btc_info` (btc.rs lines 59-80). -/
def getPnpRetry (attempt : Nat → Except String PnpTable) :
    Except String PnpTable :=
  pnpRetryGo attempt maxPnpRetries 0 maxPnpRetries

/-- `get_btc_info` (btc.rs lines 57-91). -/
def getBtcInfo (ds : List BtcDevice) (attempt : Nat → Except String PnpTable) :
    Except String (List BluetoothInfo) := do
  let pnp ← getPnpRetry attempt
  Except.ok (collectInfo (ds.map (processBtcDevice · pnp)))

/-- `get_bluetooth_info` (info.rs lines 40-80).  The `(0, _)` and `(_, 0)`
arms turn a builder failure into a warning toast plus an empty set
(`or_else(.. Ok(HashSet::new()))`); the `(_, _)` arm combines the two sets
with `chain().collect()` (set union) and degrades to the successful side
when exactly one fails. -/
def getBluetoothInfo (btcDevices : List BtcDevice) (bleDevices : List BleDevice)
    (attempt : Nat → Except String PnpTable) :
    Except String (List BluetoothInfo) :=
  match btcDevices, bleDevices with
  | [], [] => Except.error "No Classic Bluetooth and Bluetooth LE devices found"
  | [], _ :: _ =>
    match getBleInfo bleDevices with
    | Except.ok s => Except.ok s
    | Except.error _ => Except.ok []
  | _ :: _, [] =>
    match getBtcInfo btcDevices attempt with
    | Except.ok s => Except.ok s
    | Except.error _ => Except.ok []
  | _ :: _, _ :: _ =>
    match getBtcInfo btcDevices attempt, getBleInfo bleDevices with
    | Except.ok b, Except.ok l =>
      Except.ok (b ++ l.filter (fun x => decide (x ∉ b)))
    | Except.ok b, Except.error _ => Except.ok b
    | Except.error _, Except.ok l => Except.ok l
    | Except.error be, Except.error le =>
      Except.error ("Failed to get both BTC and BLE info: " ++ be ++ " | " ++ le)

/-- The full `UserEvent::UpdateTray` arm (main.rs lines 385-437) after
`find_bluetooth_devices` succeeded with the given device lists: a
`get_bluetooth_info` error aborts the update (state untouched, `none`);
otherwise the comparison step runs. -/
def updateTrayFull (cfg : NotifyConfig) (force : Bool) (st : CompareState)
    (btcDevices : List BtcDevice) (bleDevices : List BleDevice)
    (attempt : Nat → Except String PnpTable) :
    CompareState × Option (List BTEvent) :=
  match getBluetoothInfo btcDevices bleDevices attempt with
  | Except.error _ => (st, none)
  | Except.ok newInfo =>
    let r := updateTrayStep cfg force st newInfo
    (r.state, some r.events)

/-! ## Watcher lifecycle (src/bluetooth/listen.rs lines 42-232)

The manager is embedded as a state machine over a `World` that records every
watch thread ever spawned.  A thread stays live until it is joined:
`cleanup` stores `true` into the shared exit flag and then calls
`handle.join()`; the watch loop polls that flag at least every 100 ms
(listen.rs lines 146, 203-208), so `join` returns — with `Ok` or with the
panic error — only once the thread has terminated.  Whether the join
reports a panic is an input of the model (`joinPanics`). -/

/-- One spawned watch thread: its id, the target it serves, and whether it
has terminated (been joined). -/
structure WatchThread where
  id : Nat
  info : BluetoothInfo
  exited : Bool
  deriving DecidableEq

/-- `ThreadManager` (listen.rs lines 42-46), with the join handle and the
shared flag represented by the id of the tracked thread. -/
structure ThreadManager where
  handle : Option Nat
  exitFlag : Option Bool
  currentBluetoothInfo : Option BluetoothInfo
  deriving DecidableEq

/-- The manager together with the threads it has spawned. -/
structure World where
  mgr : ThreadManager
  threads : List WatchThread
  nextId : Nat
  deriving DecidableEq

/-- `ThreadManager::new` with no spawned threads. -/
def World.init : World :=
  { mgr := { handle := none, exitFlag := none, currentBluetoothInfo := none },
    threads := [], nextId := 0 }

/-- `ThreadManager::has_matching_threa` (listen.rs lines 57-64): same
transport kind and same address. -/
def hasMatchingThrea (m : ThreadManager) (info : Option BluetoothInfo) : Bool :=
  match info, m.currentBluetoothInfo with
  | some i, some c => decide (c.btype = i.btype) && decide (c.address = i.address)
  | _, _ => false

/-- Mark the thread with the given id as terminated. -/
def markExited (threads : List WatchThread) (tid : Nat) : List WatchThread :=
  threads.map fun t => if t.id = tid then { t with exited := true } else t

/-- `ThreadManager::cleanup` (listen.rs lines 67-84): `take` both the handle
and the flag; when both were present, store the exit flag and join — after
which the thread has terminated — returning an error when the join reports
a panic. -/
def cleanup (w : World) (joinPanics : Bool) : World × Except String Unit :=
  match w.mgr.handle, w.mgr.exitFlag with
  | some tid, some _ =>
    let w1 := { w with
      threads := markExited w.threads tid,
      mgr := { w.mgr with handle := none, exitFlag := none } }
    (w1, if joinPanics then Except.error "Thread panicked" else Except.ok ())
  | _, _ =>
    ({ w with mgr := { w.mgr with handle := none, exitFlag := none } },
     Except.ok ())

/-- Spawning the monitoring thread and saving the state (listen.rs lines
118-220): a fresh live thread, tracked by `handle`/`exit_flag`, with
`current_bluetooth_info` set to the target. -/
def spawnThread (w : World) (info : BluetoothInfo) : World :=
  { mgr := { handle := some w.nextId, exitFlag := some false,
             currentBluetoothInfo := some info },
    threads := w.threads ++ [{ id := w.nextId, info := info, exited := false }],
    nextId := w.nextId + 1 }

/-- The outcome of one `listen_bluetooth_device_info` call: the sequence of
world states it passes through (the last one is the final state) and its
return value. -/
structure SelectOutcome where
  states : List World
  ret : Except String Unit

/-- `listen_bluetooth_device_info` (listen.rs lines 89-232).  With
`create = true`: a target matching the running thread is a no-op; otherwise
an existing thread is cleaned up first (a cleanup error is only logged),
then the new thread is spawned — unless no device was supplied, which
errors after the cleanup already happened.  With `create = false`: cleanup
only, propagating its error. -/
def listenBluetoothDeviceInfo (w : World) (dev : Option BluetoothInfo)
    (create : Bool) (joinPanics : Bool) : SelectOutcome :=
  if create then
    if hasMatchingThrea w.mgr dev then
      { states := [w], ret := Except.ok () }
    else
      let w1 := if w.mgr.handle.isSome then (cleanup w joinPanics).1 else w
      match dev with
      | none =>
        { states := [w, w1],
          ret := Except.error "Bluetooth device is required when creating thread" }
      | some info =>
        { states := [w, w1, spawnThread w1 info], ret := Except.ok () }
  else
    let c := cleanup w joinPanics
    { states := [w, c.1], ret := c.2 }

/-- The final world of a select call. -/
def finalWorld (o : SelectOutcome) (fallback : World) : World :=
  o.states.getLast?.getD fallback

/-- The threads of a world that have not terminated. -/
def liveThreads (w : World) : List WatchThread :=
  w.threads.filter (fun t => !t.exited)

/-- Whether some live thread serves the given target. -/
def liveFor (w : World) (info : BluetoothInfo) : Bool :=
  (liveThreads w).any (fun t => decide (t.info = info))

/-! ## Derived observations used by the claims -/

/-- The events a comparison pass emitted (none on the no-update path). -/
def emittedEvents (r : Option (List BTEvent) × CompareState) : List BTEvent :=
  r.1.getD []

/-- Number of occurrences of one event in an emission list. -/
def countEvent (e : BTEvent) (l : List BTEvent) : Nat :=
  (l.filter (fun x => decide (x = e))).length

/-- Number of low-battery events in an emission list. -/
def countLowBattery (l : List BTEvent) : Nat :=
  (l.filter (fun x =>
    match x with
    | BTEvent.lowBattery _ => true
    | _ => false)).length

/-- Iterate the engine over a sequence of battery observations of a single
device: each observation is one full reconciliation pass whose snapshot
holds just the device at that battery level. -/
def observeSeq (cfg : NotifyConfig) (mk : Nat → BluetoothInfo) :
    CompareState → List Nat → List BTEvent × CompareState
  | st, [] => ([], st)
  | st, b :: rest =>
    let r := compareBtInfoToSendNotifications cfg st [mk b]
    let tail := observeSeq cfg mk r.2 rest
    (emittedEvents r ++ tail.1, tail.2)

/-- No snapshot contains two records with the same address. -/
def uniqueByAddress (l : List BluetoothInfo) : Prop :=
  l.Pairwise (fun x y => x.address ≠ y.address)

/-- The address of the record a successful per-device result carries. -/
def okAddr (r : Except String BluetoothInfo) : Option String :=
  match r with
  | Except.ok i => some i.address
  | Except.error _ => none

/-! ## Concrete instances for witnesses and counterexamples -/

/-- Default configuration: threshold 15 (config.rs line 80), every
notification kind enabled. -/
def cfgAll : NotifyConfig :=
  { lowBattery := 15, mute := false, disconnection := true,
    reconnection := true, added := true, removed := true }

/-- Concrete device record A. -/
def devA : BluetoothInfo :=
  { name := "A", battery := 50, status := true, address := "000000000001",
    btype := BluetoothType.lowEnergy 1 }

/-- Concrete device record B. -/
def devB : BluetoothInfo :=
  { name := "B", battery := 60, status := true, address := "000000000002",
    btype := BluetoothType.lowEnergy 2 }

/-- Concrete device record X. -/
def devX : BluetoothInfo :=
  { name := "X", battery := 70, status := true, address := "00000000000A",
    btype := BluetoothType.lowEnergy 10 }

/-- Concrete device record Y. -/
def devY : BluetoothInfo :=
  { name := "Y", battery := 80, status := true, address := "00000000000B",
    btype := BluetoothType.lowEnergy 11 }

/-- The single observed device of the hysteresis sequence, at a given
battery level. -/
def seqDev (b : Nat) : BluetoothInfo :=
  { name := "H", battery := b, status := true, address := "000000000003",
    btype := BluetoothType.lowEnergy 3 }

/-- A classic device whose queries all succeed. -/
def btcDevC : BtcDevice :=
  { name := Except.ok "C", bluetoothAddress := Except.ok 5,
    connectionStatus := Except.ok true }

/-- A PnP enumeration that fails on every attempt. -/
def badAttempt : Nat → Except String PnpTable :=
  fun _ => Except.error "boom"

/-- Two low-energy devices that share the 48-bit address 1 but answer with
different names. -/
def bleDevP : BleDevice :=
  { name := Except.ok "P", batteryLevel := Except.ok 40,
    connectionStatus := Except.ok true, bluetoothAddress := 1 }

/-- See `bleDevP`. -/
def bleDevQ : BleDevice :=
  { name := Except.ok "Q", batteryLevel := Except.ok 41,
    connectionStatus := Except.ok true, bluetoothAddress := 1 }

/-- The record built from `bleDevP`. -/
def recP : BluetoothInfo :=
  { name := "P", battery := 40, status := true, address := "000000000001",
    btype := BluetoothType.lowEnergy 1 }

/-- The record built from `bleDevQ`. -/
def recQ : BluetoothInfo :=
  { name := "Q", battery := 41, status := true, address := "000000000001",
    btype := BluetoothType.lowEnergy 1 }

/-- A PnP table holding just address 5. -/
def pnpT5 : PnpTable :=
  [(5, { address := 5, battery := 33, instanceId := "ID5" })]

/-- A classic device whose address 7 has no PnP entry. -/
def btcDevM : BtcDevice :=
  { name := Except.ok "M", bluetoothAddress := Except.ok 7,
    connectionStatus := Except.ok true }

/-- A PnP enumeration that succeeds immediately with `pnpT5`. -/
def goodAttempt : Nat → Except String PnpTable :=
  fun _ => Except.ok pnpT5

/-- The 48-bit addresses a list of classic devices answers with (a device
whose address query fails contributes nothing — it can never produce a
record). -/
def btcAddrsOf (ds : List BtcDevice) : List Nat :=
  ds.filterMap (fun d => d.bluetoothAddress.toOption)

/-- The 48-bit addresses of a list of low-energy devices. -/
def bleAddrsOf (ds : List BleDevice) : List Nat :=
  ds.map (fun d => d.bluetoothAddress)

/-- The record built from `btcDevC` against `pnpT5`. -/
def recC : BluetoothInfo :=
  { name := "C", battery := 33, status := true, address := "000000000005",
    btype := BluetoothType.classic "ID5" 5 }

/-- The first select of the watcher scenario: `select(A)` from the idle
initial state. -/
def selectA (a : BluetoothInfo) (p1 : Bool) : SelectOutcome :=
  listenBluetoothDeviceInfo World.init (some a) true p1

/-- The world after `select(A)`. -/
def worldAfterA (a : BluetoothInfo) (p1 : Bool) : World :=
  finalWorld (selectA a p1) World.init

/-- The second select of the watcher scenario: `select(B)` right after
`select(A)`. -/
def selectB (a b : BluetoothInfo) (p1 p2 : Bool) : SelectOutcome :=
  listenBluetoothDeviceInfo (worldAfterA a p1) (some b) true p2

/-- The world after `select(A)` followed by `select(B)`. -/
def worldAfterB (a b : BluetoothInfo) (p1 p2 : Bool) : World :=
  finalWorld (selectB a b p1 p2) (worldAfterA a p1)

/-! ## Helper lemmas -/

theorem setDiff_self (l : List BluetoothInfo) : setDiff l l = [] := by
  simp [setDiff]

theorem setDiff_nil_right (l : List BluetoothInfo) : setDiff l [] = l := by
  simp [setDiff]

theorem setDiff_nil_left (l : List BluetoothInfo) : setDiff [] l = [] := rfl

theorem setEqv_nil_right (l : List BluetoothInfo) (h : setEqv l [] = true) :
    l = [] := by
  cases l with
  | nil => rfl
  | cons a rest =>
    simp [setEqv] at h
    exact absurd rfl (h a).1

theorem runOuter_changeNew_nil (cfg : NotifyConfig) (cOld : List BluetoothInfo) :
    ∀ (olds : List BluetoothInfo) (s : List String),
      runOuter cfg cOld [] olds s = ([], s) := by
  intro olds
  induction olds with
  | nil => intro s; rfl
  | cons o rest ih => intro s; simp [runOuter, runInner, ih]

/-! ## Claim theorems -/

/-- Claim C9: for every snapshot `S`, every notified set and every
configuration, `reconcile(S, S, …)` takes the no-update path: it returns
`None` (no events are emitted, the spawned thread never runs) and the state
is unchanged. -/
theorem c9_reconcile_idempotent (cfg : NotifyConfig) (notified : List String)
    (S : List BluetoothInfo) :
    compareBtInfoToSendNotifications cfg ⟨notified, S⟩ S = (none, ⟨notified, S⟩) := by
  unfold compareBtInfoToSendNotifications
  simp [setDiff_self, setEqv]

/-- Claim C10: when the pass short-circuits (`None`), the stored canonical
snapshot and the notified-low-battery set are both left unchanged; whenever
it does not, the stored snapshot is wholesale replaced by the new one,
whatever events were emitted and whatever the configuration enabled. -/
theorem c10_frame_and_replacement (cfg : NotifyConfig) (st : CompareState)
    (newBtInfo : List BluetoothInfo) :
    ((compareBtInfoToSendNotifications cfg st newBtInfo).1 = none →
      (compareBtInfoToSendNotifications cfg st newBtInfo).2 = st) ∧
    (∀ evs, (compareBtInfoToSendNotifications cfg st newBtInfo).1 = some evs →
      (compareBtInfoToSendNotifications cfg st newBtInfo).2.oldBtInfo = newBtInfo) := by
  by_cases hb :
      setEqv (setDiff st.oldBtInfo newBtInfo) (setDiff newBtInfo st.oldBtInfo) = true <;>
    simp [compareBtInfoToSendNotifications, hb]

/-- Claim C10 witness at concrete inputs. -/
theorem c10_witness :
    (compareBtInfoToSendNotifications cfgAll ⟨[], [devA]⟩ [devA]).2 = ⟨[], [devA]⟩ ∧
    (compareBtInfoToSendNotifications cfgAll ⟨[], []⟩ [devA]).2.oldBtInfo = [devA] :=
  ⟨(c10_frame_and_replacement cfgAll ⟨[], [devA]⟩ [devA]).1 (by decide),
   (c10_frame_and_replacement cfgAll ⟨[], []⟩ [devA]).2 [] (by decide)⟩

/-- Claim C1 counterexample: with `previous = {}` and `current = {A, B}` no
`Added` event is emitted at all (the emission loop iterates over the empty
old-side diff), and with `previous = {A}` and `current = {}` no `Removed`
event is emitted either (the inner loop iterates over the empty new-side
diff) — against the claimed `[Added(A), Added(B)]` and `[Removed(A)]`. -/
theorem c1_counterexample :
    BTEvent.added devA ∉
      emittedEvents (compareBtInfoToSendNotifications cfgAll ⟨[], []⟩ [devA, devB]) ∧
    BTEvent.added devB ∉
      emittedEvents (compareBtInfoToSendNotifications cfgAll ⟨[], []⟩ [devA, devB]) ∧
    BTEvent.removed devA ∉
      emittedEvents (compareBtInfoToSendNotifications cfgAll ⟨[], [devA]⟩ []) := by
  decide

/-- Claim C1 (amended): with previous empty and current nonempty the pass
does signal an update and replaces the snapshot, but emits no events at
all — in particular no `Added` events; symmetrically, with current empty it
emits no events — in particular no `Removed` (and no `Disconnected`)
events.  `Added`/`Removed` notifications fire only when both diff sides are
nonempty. -/
theorem c1_empty_side_emits_nothing (cfg : NotifyConfig) (notified : List String) :
    (∀ newInfo : List BluetoothInfo, newInfo ≠ [] →
      compareBtInfoToSendNotifications cfg ⟨notified, []⟩ newInfo =
        (some [], ⟨notified, newInfo⟩)) ∧
    (∀ oldInfo : List BluetoothInfo, oldInfo ≠ [] →
      compareBtInfoToSendNotifications cfg ⟨notified, oldInfo⟩ [] =
        (some [], ⟨notified, []⟩)) := by
  constructor
  · intro newInfo h
    unfold compareBtInfoToSendNotifications
    cases newInfo with
    | nil => exact absurd rfl h
    | cons a rest =>
      simp only [setDiff_nil_left, setDiff_nil_right]
      have he : setEqv [] (a :: rest) = false := by
        simp [setEqv]
        exact ⟨a, fun hn => absurd rfl hn⟩
      simp [he, notifyPass, runOuter]
  · intro oldInfo h
    unfold compareBtInfoToSendNotifications
    cases oldInfo with
    | nil => exact absurd rfl h
    | cons a rest =>
      simp only [setDiff_nil_left, setDiff_nil_right]
      have he : setEqv (a :: rest) [] = false := by
        simp [setEqv]
        exact ⟨a, fun hn => absurd rfl hn⟩
      simp [he, notifyPass, runOuter_changeNew_nil]

/-- Claim C1 witness: the amended statement at the two concrete scenarios. -/
theorem c1_witness :
    compareBtInfoToSendNotifications cfgAll ⟨[], []⟩ [devA, devB] =
      (some [], ⟨[], [devA, devB]⟩) ∧
    compareBtInfoToSendNotifications cfgAll ⟨[], [devA]⟩ [] =
      (some [], ⟨[], []⟩) :=
  ⟨(c1_empty_side_emits_nothing cfgAll []).1 [devA, devB] (by decide),
   (c1_empty_side_emits_nothing cfgAll []).2 [devA] (by decide)⟩

/-- Claim C5 counterexample: with an unchanged snapshot `{A}` and the force
flag set, the engine still takes the no-update path — event emission is not
re-run (`None`, zero events); the force flag only makes the caller redo the
tray UI refresh. -/
theorem c5_counterexample :
    (compareBtInfoToSendNotifications cfgAll ⟨[], [devA]⟩ [devA]).1 = none ∧
    (updateTrayStep cfgAll true ⟨[], [devA]⟩ [devA]).events = [] ∧
    (updateTrayStep cfgAll true ⟨[], [devA]⟩ [devA]).uiRefreshed = true := by
  decide

/-- Claim C5 (amended): whenever the two structural differences are equal,
`compare_bt_info_to_send_notifications` unconditionally returns the
no-update signal with the state untouched — it takes no force flag; the
caller consults and consumes the force flag, re-running the tray UI refresh
(but not event emission) even with an unchanged snapshot. -/
theorem c5_no_op_short_circuit (cfg : NotifyConfig) (st : CompareState)
    (newBtInfo : List BluetoothInfo) (force : Bool)
    (h : setEqv (setDiff st.oldBtInfo newBtInfo) (setDiff newBtInfo st.oldBtInfo) = true) :
    compareBtInfoToSendNotifications cfg st newBtInfo = (none, st) ∧
    (updateTrayStep cfg force st newBtInfo).events = [] ∧
    (updateTrayStep cfg force st newBtInfo).uiRefreshed = force ∧
    (updateTrayStep cfg force st newBtInfo).state = st := by
  have hc : compareBtInfoToSendNotifications cfg st newBtInfo = (none, st) := by
    unfold compareBtInfoToSendNotifications
    simp [h]
  refine ⟨hc, ?_, ?_, ?_⟩ <;>
    (unfold updateTrayStep; rw [hc]; cases force <;> rfl)

/-- Claim C5 witness: the amended statement at the concrete unchanged
snapshot `{A}` with the force flag set. -/
theorem c5_witness :
    compareBtInfoToSendNotifications cfgAll ⟨[], [devA]⟩ [devA] = (none, ⟨[], [devA]⟩) ∧
    (updateTrayStep cfgAll true ⟨[], [devA]⟩ [devA]).events = [] ∧
    (updateTrayStep cfgAll true ⟨[], [devA]⟩ [devA]).uiRefreshed = true ∧
    (updateTrayStep cfgAll true ⟨[], [devA]⟩ [devA]).state = ⟨[], [devA]⟩ :=
  c5_no_op_short_circuit cfgAll ⟨[], [devA]⟩ [devA] true (by decide)

theorem notifyPass_singleton (cfg : NotifyConfig) (o n : BluetoothInfo)
    (s : List String) :
    notifyPass cfg [o] [n] s = processPair cfg [o] [n] s o n := by
  simp [notifyPass, runOuter, runInner]

/-- Claim C2 counterexample: with threshold 15, the battery sequence
50, 10, 8, 12, 5 emits exactly one `LowBattery` event (at the 10
observation), not two — at 12 the battery is still below the threshold, so
the notified flag is never cleared and the 5 observation stays silent. -/
theorem c2_counterexample :
    countLowBattery (observeSeq cfgAll seqDev ⟨[], [seqDev 50]⟩ [10, 8, 12, 5]).1 ≠ 2 := by
  decide

/-- Claim C2 (amended): for a paired record whose battery changed, a
`LowBattery` event is emitted iff the new battery is strictly below the
threshold and the address is not in the notified set, in which case the
address is inserted; when the new battery is at or above the threshold and
the address is in the set, the flag is cleared with no event.  With
threshold 15, the sequence 50, 10, 8, 12, 5 therefore emits exactly one
`LowBattery` event, at the 10 observation. -/
theorem c2_hysteresis (cfg : NotifyConfig) (notified : List String)
    (old new : BluetoothInfo) (haddr : old.address = new.address)
    (hbat : old.battery ≠ new.battery) :
    ((BTEvent.lowBattery new ∈ (notifyPass cfg [old] [new] notified).1) ↔
      (new.battery < cfg.lowBattery ∧ new.address ∉ notified)) ∧
    (new.battery < cfg.lowBattery → new.address ∉ notified →
      (notifyPass cfg [old] [new] notified).2 = hsInsert notified new.address) ∧
    (cfg.lowBattery ≤ new.battery → new.address ∈ notified →
      (notifyPass cfg [old] [new] notified).2 = hsRemove notified new.address ∧
        BTEvent.lowBattery new ∉ (notifyPass cfg [old] [new] notified).1) ∧
    (observeSeq cfgAll seqDev ⟨[], [seqDev 50]⟩ [10, 8, 12, 5]).1 =
      [BTEvent.lowBattery (seqDev 10)] := by
  rw [notifyPass_singleton, processPair, if_pos haddr]
  have hbat' : new.battery ≠ old.battery := fun he => hbat he.symm
  by_cases hl : new.battery < cfg.lowBattery <;>
    by_cases hm : new.address ∈ notified <;>
      simp [hsContains, hbat', hl, hm] <;>
        constructor

/-- Claim C2 witness: the hysteresis rule at the 50 → 10 observation with
an empty notified set: the event fires. -/
theorem c2_witness :
    BTEvent.lowBattery (seqDev 10) ∈ (notifyPass cfgAll [seqDev 50] [seqDev 10] []).1 :=
  ((c2_hysteresis cfgAll [] (seqDev 50) (seqDev 10) rfl (by decide)).1).mpr (by decide)

/-- Claim C4 counterexample: with `previous = {X, Y}` and `current = {A}`
(three distinct addresses) the pass emits `Added(A)` twice — once per
old-side diff element — so per-device events are not deduplicated. -/
theorem c4_counterexample :
    1 < countEvent (BTEvent.added devA)
      (emittedEvents (compareBtInfoToSendNotifications cfgAll ⟨[], [devX, devY]⟩ [devA])) := by
  decide

/-- Claim C4 (amended): events are not deduplicated within a pass: with
old-side diff `[x, y]` and new-side diff `[a]` (pairwise distinct
addresses) and added/removed notifications enabled, `Added(a)` is emitted
exactly twice — once per old-side element — while `Removed(x)` and
`Removed(y)` are each emitted once per new-side element. -/
theorem c4_added_multiplicity (cfg : NotifyConfig) (notified : List String)
    (x y a : BluetoothInfo)
    (hcfgA : cfg.added = true) (hcfgR : cfg.removed = true)
    (hxa : x.address ≠ a.address) (hya : y.address ≠ a.address)
    (hxy : x.address ≠ y.address) :
    countEvent (BTEvent.added a) (notifyPass cfg [x, y] [a] notified).1 = 2 ∧
    countEvent (BTEvent.removed x) (notifyPass cfg [x, y] [a] notified).1 = 1 ∧
    countEvent (BTEvent.removed y) (notifyPass cfg [x, y] [a] notified).1 = 1 := by
  have hxa' : x ≠ a := fun h => hxa (congrArg BluetoothInfo.address h)
  have hya' : y ≠ a := fun h => hya (congrArg BluetoothInfo.address h)
  have hxy' : x ≠ y := fun h => hxy (congrArg BluetoothInfo.address h)
  have hax' : a ≠ x := fun h => hxa' h.symm
  have hay' : a ≠ y := fun h => hya' h.symm
  have hyx' : y ≠ x := fun h => hxy' h.symm
  simp [notifyPass, runOuter, runInner, processPair, setDiff, countEvent,
    hcfgA, hcfgR, hxa, hya, hxa', hya', hxy', hax', hay', hyx']

theorem compare_nil_oldBtInfo (cfg : NotifyConfig) (st : CompareState) :
    (compareBtInfoToSendNotifications cfg st []).2.oldBtInfo = [] := by
  unfold compareBtInfoToSendNotifications
  simp only [setDiff_nil_left, setDiff_nil_right]
  by_cases hb : setEqv st.oldBtInfo [] = true
  · have hnil := setEqv_nil_right _ hb
    simp [hnil, setEqv]
  · simp [hb]

theorem updateTrayStep_state (cfg : NotifyConfig) (force : Bool)
    (st : CompareState) (newBtInfo : List BluetoothInfo) :
    (updateTrayStep cfg force st newBtInfo).state =
      (compareBtInfoToSendNotifications cfg st newBtInfo).2 := by
  unfold updateTrayStep
  cases hc : compareBtInfoToSendNotifications cfg st newBtInfo with
  | mk o s2 => cases o <;> cases force <;> rfl

/-- Claim C3 counterexample: with prior snapshot `{A}` held, one classic
device present, no low-energy devices, and PnP enumeration failing on every
attempt, the engine replaces the prior snapshot by the empty one — it does
not return the prior snapshot unchanged. -/
theorem c3_counterexample :
    (updateTrayFull cfgAll false ⟨[], [devA]⟩ [btcDevC] [] badAttempt).1.oldBtInfo = [] ∧
    ([] : List BluetoothInfo) ≠ [devA] := by
  decide

/-- Claim C3 (amended): PnP enumeration is retried up to `max_retries = 2`
attempts (with a fixed 2-second inter-attempt delay in the source), only
attempts 0 and 1 are ever consulted, and when both fail the error is
surfaced by `get_btc_info`; `get_bluetooth_info` however converts that
error into a warning plus an *empty* snapshot when no low-energy devices
accompany the classic ones, so the engine replaces the prior snapshot with
the empty one; the prior snapshot survives only when `get_bluetooth_info`
itself errors (no devices found at all). -/
theorem c3_retry_and_empty_degrade (attempt : Nat → Except String PnpTable)
    (e0 e1 : String) (h0 : attempt 0 = Except.error e0)
    (h1 : attempt 1 = Except.error e1) :
    getPnpRetry attempt =
      Except.error ("Trying to enumerate the pnp device twice failed: " ++ e1) ∧
    (∀ ds : List BtcDevice,
      getBtcInfo ds attempt =
        Except.error ("Trying to enumerate the pnp device twice failed: " ++ e1)) ∧
    (∀ attempt2 : Nat → Except String PnpTable, attempt2 0 = attempt 0 →
      attempt2 1 = attempt 1 → getPnpRetry attempt2 = getPnpRetry attempt) ∧
    (∀ (cfg : NotifyConfig) (force : Bool) (st : CompareState) (d : BtcDevice)
      (ds : List BtcDevice),
      (updateTrayFull cfg force st (d :: ds) [] attempt).1.oldBtInfo = []) ∧
    (∀ (cfg : NotifyConfig) (force : Bool) (st : CompareState),
      updateTrayFull cfg force st [] [] attempt = (st, none)) := by
  have hr : getPnpRetry attempt =
      Except.error ("Trying to enumerate the pnp device twice failed: " ++ e1) := by
    simp [getPnpRetry, pnpRetryGo, maxPnpRetries, h0, h1]
  have hb : ∀ ds : List BtcDevice,
      getBtcInfo ds attempt =
        Except.error ("Trying to enumerate the pnp device twice failed: " ++ e1) := by
    intro ds
    unfold getBtcInfo
    rw [hr]
    rfl
  refine ⟨hr, hb, ?_, ?_, ?_⟩
  · intro attempt2 g0 g1
    simp [getPnpRetry, pnpRetryGo, maxPnpRetries, g0, g1, h0, h1]
  · intro cfg force st d ds
    have hfull : getBluetoothInfo (d :: ds) [] attempt = Except.ok [] := by
      simp [getBluetoothInfo, hb (d :: ds)]
    unfold updateTrayFull
    rw [hfull]
    simp [updateTrayStep_state, compare_nil_oldBtInfo]
  · intro cfg force st
    rfl

/-- Claim C3 witness: the amended degradation at concrete inputs — a prior
snapshot `{A}`, one classic device, PnP enumeration failing on both
attempts. -/
theorem c3_witness :
    (updateTrayFull cfgAll false ⟨[], [devA]⟩ [btcDevC] [] badAttempt).1.oldBtInfo = [] :=
  ((c3_retry_and_empty_degrade badAttempt "boom" "boom" rfl rfl).2.2.2.1)
    cfgAll false ⟨[], [devA]⟩ btcDevC []

theorem exceptOk_bind {ε α β : Type} (a : α) (f : α → Except ε β) :
    (Except.ok a : Except ε α) >>= f = f a := rfl

theorem foldl_collectStep_skip (e : String) :
    ∀ (rs1 rs2 : List (Except String BluetoothInfo)) (acc : List BluetoothInfo),
      (rs1 ++ Except.error e :: rs2).foldl collectStep acc =
        (rs1 ++ rs2).foldl collectStep acc := by
  intro rs1
  induction rs1 with
  | nil => intro rs2 acc; rfl
  | cons r rest ih => intro rs2 acc; simp only [List.cons_append, List.foldl_cons, ih]

/-- Claim C7: classic-transport battery correlation is an exact address
lookup in the PnP side-channel table: a successfully queried device whose
address has an entry gets exactly that entry battery (and instance id); a
device whose address has no entry is rejected with the no-match error —
whatever its name — and such a failing device leaves the rest of the batch
untouched. -/
theorem c7_exact_address_correlation :
    (∀ (d : BtcDevice) (pnp : PnpTable) (nm : String) (addr : Nat) (stat : Bool)
      (i : PnpDeviceInfo),
      d.name = Except.ok nm → d.bluetoothAddress = Except.ok addr →
      d.connectionStatus = Except.ok stat → List.lookup addr pnp = some i →
      processBtcDevice d pnp =
        Except.ok { name := strTrim nm, battery := i.battery, status := stat,
                    address := hexMac addr,
                    btype := BluetoothType.classic i.instanceId addr }) ∧
    (∀ (d : BtcDevice) (pnp : PnpTable) (nm : String) (addr : Nat),
      d.name = Except.ok nm → d.bluetoothAddress = Except.ok addr →
      List.lookup addr pnp = none →
      processBtcDevice d pnp =
        Except.error ("No matching Bluetooth Classic Device in Pnp device: " ++ strTrim nm)) ∧
    (∀ (ds1 ds2 : List BtcDevice) (d : BtcDevice)
      (attempt : Nat → Except String PnpTable) (pnp : PnpTable) (e : String),
      getPnpRetry attempt = Except.ok pnp →
      processBtcDevice d pnp = Except.error e →
      getBtcInfo (ds1 ++ d :: ds2) attempt = getBtcInfo (ds1 ++ ds2) attempt) := by
  refine ⟨?_, ?_, ?_⟩
  · intro d pnp nm addr stat i hn ha hs hl
    unfold processBtcDevice
    rw [hn, ha]
    simp [exceptOk_bind, hl, hs]
  · intro d pnp nm addr hn ha hl
    unfold processBtcDevice
    rw [hn, ha]
    simp [exceptOk_bind, hl]
  · intro ds1 ds2 d attempt pnp e hp hd
    unfold getBtcInfo
    rw [hp]
    simp only [exceptOk_bind, List.map_append, List.map_cons, hd, collectInfo]
    rw [foldl_collectStep_skip]

/-- Claim C7 witness: a matched device (address 5) receives battery 33 from
its own entry; an unmatched device (address 7, name "M") is rejected and
its presence does not change the snapshot of the matched batch. -/
theorem c7_witness :
    processBtcDevice btcDevC pnpT5 =
      Except.ok { name := strTrim "C", battery := 33, status := true,
                  address := hexMac 5, btype := BluetoothType.classic "ID5" 5 } ∧
    processBtcDevice btcDevM pnpT5 =
      Except.error ("No matching Bluetooth Classic Device in Pnp device: " ++ strTrim "M") ∧
    getBtcInfo ([btcDevC] ++ btcDevM :: []) goodAttempt =
      getBtcInfo ([btcDevC] ++ []) goodAttempt :=
  ⟨c7_exact_address_correlation.1 btcDevC pnpT5 "C" 5 true
      { address := 5, battery := 33, instanceId := "ID5" } rfl rfl rfl rfl,
   c7_exact_address_correlation.2.1 btcDevM pnpT5 "M" 7 rfl rfl rfl,
   c7_exact_address_correlation.2.2 [btcDevC] [] btcDevM goodAttempt pnpT5
      ("No matching Bluetooth Classic Device in Pnp device: " ++ strTrim "M") rfl
      (c7_exact_address_correlation.2.1 btcDevM pnpT5 "M" 7 rfl rfl rfl)⟩

/-- Claim C8: after `select(A)` then `select(B)` (different addresses) from
the idle initial state, no state ever has both an A-thread and a B-thread
live — the old thread is joined (hence terminated) before the new one is
spawned; selecting a target matching the running thread on (kind, address)
is a no-op; a panicking join is reported as an error by `cleanup`, yet the
second select still ends with exactly the B-thread live. -/
theorem c8_watcher_exclusivity (a b : BluetoothInfo) (p1 p2 : Bool)
    (h : a.address ≠ b.address) :
    (∀ w ∈ (selectA a p1).states ++ (selectB a b p1 p2).states,
      liveFor w a = false ∨ liveFor w b = false) ∧
    (∀ a2 : BluetoothInfo, a2.btype = a.btype → a2.address = a.address →
      (listenBluetoothDeviceInfo (worldAfterA a p1) (some a2) true p2).states =
        [worldAfterA a p1] ∧
      (listenBluetoothDeviceInfo (worldAfterA a p1) (some a2) true p2).ret =
        Except.ok ()) ∧
    liveThreads (worldAfterB a b p1 p2) = [{ id := 1, info := b, exited := false }] ∧
    (cleanup (worldAfterA a p1) true).2 = Except.error "Thread panicked" := by
  have hab : a ≠ b := fun he => h (congrArg BluetoothInfo.address he)
  have hba : b ≠ a := fun he => hab he.symm
  have hwA : worldAfterA a p1 = spawnThread World.init a := rfl
  have hmB : hasMatchingThrea (worldAfterA a p1).mgr (some b) = false := by
    simp [hwA, spawnThread, World.init, hasMatchingThrea, h]
  have hh : (worldAfterA a p1).mgr.handle.isSome = true := rfl
  have hsB : (selectB a b p1 p2).states =
      [worldAfterA a p1, (cleanup (worldAfterA a p1) p2).1,
       spawnThread ((cleanup (worldAfterA a p1) p2).1) b] := by
    simp [selectB, listenBluetoothDeviceInfo, hmB, hh]
  have hclean : (cleanup (worldAfterA a p1) p2).1 =
      { mgr := { handle := none, exitFlag := none, currentBluetoothInfo := some a },
        threads := [{ id := 0, info := a, exited := true }], nextId := 1 } := by
    simp [hwA, spawnThread, World.init, cleanup, markExited]
  have l2 : liveFor (spawnThread World.init a) b = false := by
    simp [liveFor, liveThreads, spawnThread, World.init]
    exact hab
  have l3 : liveFor ((cleanup (worldAfterA a p1) p2).1) a = false := by
    rw [hclean]
    simp [liveFor, liveThreads]
  have l4 : liveFor (spawnThread ((cleanup (worldAfterA a p1) p2).1) b) a = false := by
    rw [hclean]
    simp [liveFor, liveThreads, spawnThread]
    exact hba
  refine ⟨?_, ?_, ?_, ?_⟩
  · intro w hw
    have hsA : (selectA a p1).states =
        [World.init, World.init, spawnThread World.init a] := rfl
    rw [hsA, hsB] at hw
    simp only [List.mem_append, List.mem_cons, List.not_mem_nil, or_false] at hw
    rcases hw with (h1 | h1 | h1) | (h1 | h1 | h1) <;> subst h1
    · exact Or.inl rfl
    · exact Or.inl rfl
    · exact Or.inr l2
    · rw [hwA]
      exact Or.inr l2
    · exact Or.inl l3
    · exact Or.inl l4
  · intro a2 ht ha2
    have hm2 : hasMatchingThrea (worldAfterA a p1).mgr (some a2) = true := by
      simp [hwA, spawnThread, World.init, hasMatchingThrea, ht.symm, ha2.symm]
    constructor <;> simp [listenBluetoothDeviceInfo, hm2]
  · have : worldAfterB a b p1 p2 =
        spawnThread ((cleanup (worldAfterA a p1) p2).1) b := by
      simp [worldAfterB, finalWorld, hsB]
    rw [this, hclean]
    simp [liveThreads, spawnThread]
  · rw [hwA]
    rfl

/-- Claim C8 witness: the scenario at concrete devices A and B with the
second join panicking. -/
theorem c8_witness :
    liveThreads (worldAfterB devA devB false true) =
      [{ id := 1, info := devB, exited := false }] :=
  (c8_watcher_exclusivity devA devB false true (by decide)).2.2.1

/-- Claim C4 witness: the multiplicity statement at concrete devices. -/
theorem c4_witness :
    countEvent (BTEvent.added devA) (notifyPass cfgAll [devX, devY] [devA] []).1 = 2 ∧
    countEvent (BTEvent.removed devX) (notifyPass cfgAll [devX, devY] [devA] []).1 = 1 ∧
    countEvent (BTEvent.removed devY) (notifyPass cfgAll [devX, devY] [devA] []).1 = 1 :=
  c4_added_multiplicity cfgAll [] devX devY devA rfl rfl (by decide) (by decide)
    (by decide)

theorem exceptError_bind {ε α β : Type} (e : ε) (f : α → Except ε β) :
    (Except.error e : Except ε α) >>= f = Except.error e := rfl

theorem processBleDevice_ok_address (d : BleDevice) (r : BluetoothInfo)
    (h : processBleDevice d = Except.ok r) :
    r.address = hexMac d.bluetoothAddress := by
  unfold processBleDevice at h
  cases hn : d.name with
  | error e =>
    rw [hn, exceptError_bind] at h
    exact Except.noConfusion h
  | ok nm =>
    rw [hn] at h
    simp only [exceptOk_bind] at h
    cases hbt : d.batteryLevel with
    | error e =>
      rw [hbt, exceptError_bind] at h
      exact Except.noConfusion h
    | ok bl =>
      rw [hbt] at h
      simp only [exceptOk_bind] at h
      cases hc : d.connectionStatus with
      | error e =>
        rw [hc, exceptError_bind] at h
        exact Except.noConfusion h
      | ok cs =>
        rw [hc] at h
        simp only [exceptOk_bind] at h
        cases h
        rfl

theorem hexDigit_inj : ∀ m < 16, ∀ n < 16, hexDigit m = hexDigit n → m = n := by
  decide

theorem digits_mod_pow (x y : Nat) :
    ∀ k : Nat, (∀ j, j < k → x / 16 ^ j % 16 = y / 16 ^ j % 16) →
      x % 16 ^ k = y % 16 ^ k := by
  intro k
  induction k with
  | zero => intro _; simp [Nat.mod_one]
  | succ k ih =>
    intro hj
    have hx : x % 16 ^ (k + 1) = x % 16 ^ k + 16 ^ k * (x / 16 ^ k % 16) := by
      rw [pow_succ, Nat.mod_mul]
    have hy : y % 16 ^ (k + 1) = y % 16 ^ k + 16 ^ k * (y / 16 ^ k % 16) := by
      rw [pow_succ, Nat.mod_mul]
    rw [hx, hy, ih (fun j hjk => hj j (Nat.lt_succ_of_lt hjk)),
      hj k (Nat.lt_succ_self k)]

theorem hexMac_digit_eq (x y : Nat) (h : hexMac x = hexMac y) :
    ∀ i, i < 12 → x / 16 ^ (11 - i) % 16 = y / 16 ^ (11 - i) % 16 := by
  intro i hi
  have hl : ((List.range 12).map fun j => hexDigit (x / 16 ^ (11 - j) % 16)) =
      ((List.range 12).map fun j => hexDigit (y / 16 ^ (11 - j) % 16)) :=
    congrArg String.data h
  have h2 := congrArg (fun l => l[i]?) hl
  simp only [List.getElem?_map, List.getElem?_range hi, Option.map_some',
    Option.some.injEq] at h2
  exact hexDigit_inj _ (Nat.mod_lt _ (by norm_num)) _ (Nat.mod_lt _ (by norm_num)) h2

theorem hexMac_inj (x y : Nat) (hx : x < 16 ^ 12) (hy : y < 16 ^ 12)
    (h : hexMac x = hexMac y) : x = y := by
  have hmod : x % 16 ^ 12 = y % 16 ^ 12 := by
    refine digits_mod_pow x y 12 ?_
    intro j hj
    have hd := hexMac_digit_eq x y h (11 - j) (by omega)
    rwa [show 11 - (11 - j) = j by omega] at hd
  rwa [Nat.mod_eq_of_lt hx, Nat.mod_eq_of_lt hy] at hmod

theorem mem_hsInsertInfo {x info : BluetoothInfo} {s : List BluetoothInfo}
    (h : x ∈ hsInsertInfo s info) : x ∈ s ∨ x = info := by
  unfold hsInsertInfo at h
  split at h
  · exact Or.inl h
  · rcases List.mem_append.mp h with h1 | h1
    · exact Or.inl h1
    · simp only [List.mem_singleton] at h1
      exact Or.inr h1

theorem foldl_collectStep_unique :
    ∀ (results : List (Except String BluetoothInfo)) (acc : List BluetoothInfo),
      uniqueByAddress acc →
      (results.filterMap okAddr).Pairwise (· ≠ ·) →
      (∀ r ∈ acc, r.address ∉ results.filterMap okAddr) →
      uniqueByAddress (results.foldl collectStep acc) := by
  intro results
  induction results with
  | nil => intro acc h1 _ _; exact h1
  | cons r rest ih =>
    intro acc h1 h2 h3
    cases r with
    | error e =>
      have hfm : ((Except.error e : Except String BluetoothInfo) :: rest).filterMap okAddr =
          rest.filterMap okAddr := by
        simp [okAddr]
      rw [hfm] at h2 h3
      exact ih acc h1 h2 h3
    | ok info =>
      have hfm : ((Except.ok info : Except String BluetoothInfo) :: rest).filterMap okAddr =
          info.address :: rest.filterMap okAddr := by
        simp [okAddr]
      rw [hfm] at h2 h3
      have hpair := List.pairwise_cons.mp h2
      have hu : uniqueByAddress (hsInsertInfo acc info) := by
        unfold hsInsertInfo
        split
        · exact h1
        · unfold uniqueByAddress
          rw [List.pairwise_append]
          refine ⟨h1, List.pairwise_singleton _ _, ?_⟩
          intro z hz w hw
          simp only [List.mem_singleton] at hw
          subst hw
          have h4 := h3 z hz
          simp only [List.mem_cons, not_or] at h4
          exact h4.1
      refine ih (hsInsertInfo acc info) hu hpair.2 ?_
      intro z hz
      rcases mem_hsInsertInfo hz with hmem | heq
      · have h4 := h3 z hmem
        simp only [List.mem_cons, not_or] at h4
        exact h4.2
      · subst heq
        intro hc
        exact hpair.1 _ hc rfl

theorem okAddr_processBle (d : BleDevice) (x : String)
    (hx : x ∈ okAddr (processBleDevice d)) : x = hexMac d.bluetoothAddress := by
  cases hp : processBleDevice d with
  | ok r =>
    rw [hp] at hx
    simp only [okAddr, Option.mem_def, Option.some.injEq] at hx
    rw [← hx]
    exact processBleDevice_ok_address d r hp
  | error e =>
    rw [hp] at hx
    simp [okAddr] at hx

theorem bleAddrs_pairwise (ds : List BleDevice)
    (hd : (ds.map (fun d => d.bluetoothAddress)).Pairwise (· ≠ ·))
    (hb : ∀ d ∈ ds, d.bluetoothAddress < 16 ^ 12) :
    ((ds.map processBleDevice).filterMap okAddr).Pairwise (· ≠ ·) := by
  rw [List.filterMap_map]
  have hd1 : ds.Pairwise (fun d1 d2 => d1.bluetoothAddress ≠ d2.bluetoothAddress) :=
    List.pairwise_map.mp hd
  have hd2 : ds.Pairwise
      (fun d1 d2 => hexMac d1.bluetoothAddress ≠ hexMac d2.bluetoothAddress) := by
    refine List.Pairwise.imp_of_mem ?_ hd1
    intro d1 d2 h1 h2 hne heq
    exact hne (hexMac_inj _ _ (hb d1 h1) (hb d2 h2) heq)
  refine List.pairwise_filterMap.mpr ?_
  refine List.Pairwise.imp ?_ hd2
  intro d1 d2 hne x hx y hy
  rw [okAddr_processBle d1 x hx, okAddr_processBle d2 y hy]
  exact hne

/-- Claim C6 counterexample: two low-energy devices sharing address 1 but
answering with different names produce a snapshot holding two distinct
records with the same address — the builder deduplicates only whole
records, not addresses. -/
theorem c6_counterexample :
    getBluetoothInfo [] [bleDevP, bleDevQ] badAttempt = Except.ok [recP, recQ] ∧
    recP.address = recQ.address ∧ recP ≠ recQ := by
  refine ⟨rfl, rfl, by decide⟩

theorem getBleInfo_unique_for_distinct_addresses (ds : List BleDevice)
    (hd : (ds.map (fun d => d.bluetoothAddress)).Pairwise (· ≠ ·))
    (hb : ∀ d ∈ ds, d.bluetoothAddress < 16 ^ 12) :
    ∀ s, getBleInfo ds = Except.ok s → uniqueByAddress s := by
  intro s hs
  have hcol : s = collectInfo (ds.map processBleDevice) := by
    unfold getBleInfo at hs
    injection hs with h
    exact h.symm
  rw [hcol]
  unfold collectInfo
  refine foldl_collectStep_unique _ [] List.Pairwise.nil
    (bleAddrs_pairwise ds hd hb) ?_
  intro z hz
  simp at hz

theorem nodup_hsInsertInfo (s : List BluetoothInfo) (x : BluetoothInfo)
    (h : s.Nodup) : (hsInsertInfo s x).Nodup := by
  by_cases hmem : x ∈ s
  · simpa [hsInsertInfo, hmem] using h
  · rw [hsInsertInfo, if_neg hmem]
    refine List.Nodup.append h (List.nodup_singleton x) ?_
    intro a ha hax
    simp only [List.mem_singleton] at hax
    exact hmem (hax ▸ ha)

theorem foldl_collectStep_nodup :
    ∀ (results : List (Except String BluetoothInfo)) (acc : List BluetoothInfo),
      acc.Nodup → (results.foldl collectStep acc).Nodup := by
  intro results
  induction results with
  | nil => intro acc h; exact h
  | cons r rest ih =>
    intro acc h
    cases r with
    | ok info => exact ih _ (nodup_hsInsertInfo _ _ h)
    | error e => exact ih _ h

theorem collectInfo_nodup (results : List (Except String BluetoothInfo)) :
    (collectInfo results).Nodup :=
  foldl_collectStep_nodup results [] List.nodup_nil

theorem getBtcInfo_ok_eq (ds : List BtcDevice)
    (attempt : Nat → Except String PnpTable) (s : List BluetoothInfo)
    (h : getBtcInfo ds attempt = Except.ok s) :
    ∃ pnp, getPnpRetry attempt = Except.ok pnp ∧
      s = collectInfo (ds.map (fun d => processBtcDevice d pnp)) := by
  unfold getBtcInfo at h
  cases hp : getPnpRetry attempt with
  | error e =>
    rw [hp, exceptError_bind] at h
    exact Except.noConfusion h
  | ok pnp =>
    rw [hp] at h
    simp only [exceptOk_bind] at h
    injection h with h
    exact ⟨pnp, rfl, h.symm⟩

theorem nodup_union (b l : List BluetoothInfo) (hb : b.Nodup) (hl : l.Nodup) :
    (b ++ l.filter (fun x => decide (x ∉ b))).Nodup := by
  refine List.Nodup.append hb (hl.filter _) ?_
  intro a ha haf
  have hp := List.of_mem_filter haf
  simp only [decide_not, Bool.not_eq_true', decide_eq_false_iff_not] at hp
  exact hp ha

theorem mem_foldl_collectStep :
    ∀ (results : List (Except String BluetoothInfo)) (acc : List BluetoothInfo)
      (r : BluetoothInfo), r ∈ results.foldl collectStep acc →
      r ∈ acc ∨ r.address ∈ results.filterMap okAddr := by
  intro results
  induction results with
  | nil => intro acc r h; exact Or.inl h
  | cons x rest ih =>
    intro acc r h
    cases x with
    | error e =>
      rcases ih _ r h with h1 | h1
      · exact Or.inl h1
      · right
        simpa [okAddr] using h1
    | ok info =>
      rcases ih _ r h with h1 | h1
      · rcases mem_hsInsertInfo h1 with h2 | h2
        · exact Or.inl h2
        · right
          subst h2
          simp [okAddr]
      · right
        simp only [List.filterMap_cons, okAddr, List.mem_cons]
        exact Or.inr h1

theorem processBtcDevice_ok_address (d : BtcDevice) (pnp : PnpTable)
    (r : BluetoothInfo) (h : processBtcDevice d pnp = Except.ok r) :
    ∃ a, d.bluetoothAddress = Except.ok a ∧ r.address = hexMac a := by
  cases hn : d.name with
  | error e =>
    have hcomp : processBtcDevice d pnp = Except.error e := by
      unfold processBtcDevice
      rw [hn, exceptError_bind]
    rw [hcomp] at h
    exact Except.noConfusion h
  | ok nm =>
    cases ha : d.bluetoothAddress with
    | error e =>
      have hcomp : processBtcDevice d pnp = Except.error e := by
        unfold processBtcDevice
        rw [hn]
        simp only [exceptOk_bind]
        rw [ha, exceptError_bind]
      rw [hcomp] at h
      exact Except.noConfusion h
    | ok addr =>
      refine ⟨addr, rfl, ?_⟩
      cases hl : List.lookup addr pnp with
      | none =>
        have hcomp : processBtcDevice d pnp = Except.error
            ("No matching Bluetooth Classic Device in Pnp device: " ++ strTrim nm) := by
          unfold processBtcDevice
          rw [hn]
          simp only [exceptOk_bind]
          rw [ha]
          simp only [exceptOk_bind]
          rw [hl]
        rw [hcomp] at h
        exact Except.noConfusion h
      | some i =>
        cases hc : d.connectionStatus with
        | error e =>
          have hcomp : processBtcDevice d pnp = Except.error e := by
            unfold processBtcDevice
            rw [hn]
            simp only [exceptOk_bind]
            rw [ha]
            simp only [exceptOk_bind]
            rw [hl, hc]
            rfl
          rw [hcomp] at h
          exact Except.noConfusion h
        | ok cs =>
          have hcomp : processBtcDevice d pnp = Except.ok
              { name := strTrim nm, battery := i.battery, status := cs,
                address := hexMac addr,
                btype := BluetoothType.classic i.instanceId addr } := by
            unfold processBtcDevice
            rw [hn]
            simp only [exceptOk_bind]
            rw [ha]
            simp only [exceptOk_bind]
            rw [hl, hc]
            rfl
          rw [hcomp] at h
          injection h with h
          rw [← h]

theorem okAddr_processBtc (d : BtcDevice) (pnp : PnpTable) (x : String)
    (hx : x ∈ okAddr (processBtcDevice d pnp)) :
    ∃ a, d.bluetoothAddress = Except.ok a ∧ x = hexMac a := by
  cases hp : processBtcDevice d pnp with
  | ok r =>
    rw [hp] at hx
    simp only [okAddr, Option.mem_def, Option.some.injEq] at hx
    obtain ⟨a, ha, hr⟩ := processBtcDevice_ok_address d pnp r hp
    exact ⟨a, ha, by rw [← hx, hr]⟩
  | error e =>
    rw [hp] at hx
    simp [okAddr] at hx

theorem btcAddrs_pairwise (ds : List BtcDevice) (pnp : PnpTable)
    (hd : (btcAddrsOf ds).Pairwise (· ≠ ·))
    (hb : ∀ a ∈ btcAddrsOf ds, a < 16 ^ 12) :
    ((ds.map (fun d => processBtcDevice d pnp)).filterMap okAddr).Pairwise (· ≠ ·) := by
  rw [List.filterMap_map]
  unfold btcAddrsOf at hd hb
  have hd1 : ds.Pairwise (fun d1 d2 =>
      ∀ a1 ∈ d1.bluetoothAddress.toOption, ∀ a2 ∈ d2.bluetoothAddress.toOption,
        a1 ≠ a2) := List.pairwise_filterMap.mp hd
  refine List.pairwise_filterMap.mpr ?_
  refine List.Pairwise.imp_of_mem ?_ hd1
  intro d1 d2 hm1 hm2 hrel x hx y hy
  obtain ⟨a1, ha1, hxa⟩ := okAddr_processBtc d1 pnp x hx
  obtain ⟨a2, ha2, hya⟩ := okAddr_processBtc d2 pnp y hy
  have hmo1 : a1 ∈ d1.bluetoothAddress.toOption := by rw [ha1]; rfl
  have hmo2 : a2 ∈ d2.bluetoothAddress.toOption := by rw [ha2]; rfl
  have hne : a1 ≠ a2 := hrel a1 hmo1 a2 hmo2
  have hb1 : a1 < 16 ^ 12 := hb a1 (List.mem_filterMap.mpr ⟨d1, hm1, hmo1⟩)
  have hb2 : a2 < 16 ^ 12 := hb a2 (List.mem_filterMap.mpr ⟨d2, hm2, hmo2⟩)
  rw [hxa, hya]
  exact fun he => hne (hexMac_inj _ _ hb1 hb2 he)

theorem btcCollect_unique (ds : List BtcDevice) (pnp : PnpTable)
    (hd : (btcAddrsOf ds).Pairwise (· ≠ ·))
    (hb : ∀ a ∈ btcAddrsOf ds, a < 16 ^ 12) :
    uniqueByAddress (collectInfo (ds.map (fun d => processBtcDevice d pnp))) := by
  unfold collectInfo
  refine foldl_collectStep_unique _ [] List.Pairwise.nil
    (btcAddrs_pairwise ds pnp hd hb) ?_
  intro z hz
  simp at hz

theorem bleCollect_unique (ds : List BleDevice)
    (hd : (bleAddrsOf ds).Pairwise (· ≠ ·))
    (hb : ∀ a ∈ bleAddrsOf ds, a < 16 ^ 12) :
    uniqueByAddress (collectInfo (ds.map processBleDevice)) := by
  unfold bleAddrsOf at hd hb
  unfold collectInfo
  refine foldl_collectStep_unique _ [] List.Pairwise.nil
    (bleAddrs_pairwise ds hd (fun d hdm => hb _ (List.mem_map_of_mem _ hdm))) ?_
  intro z hz
  simp at hz

theorem uniqueByAddress_union (b l : List BluetoothInfo)
    (hub : uniqueByAddress b) (hul : uniqueByAddress l)
    (hcross : ∀ x ∈ b, ∀ y ∈ l, x.address ≠ y.address) :
    uniqueByAddress (b ++ l.filter (fun x => decide (x ∉ b))) := by
  unfold uniqueByAddress
  rw [List.pairwise_append]
  refine ⟨hub, List.Pairwise.sublist (List.filter_sublist l) hul, ?_⟩
  intro x hx y hy
  exact hcross x hx y (List.mem_of_mem_filter hy)

theorem union_cross (btcDs : List BtcDevice) (bleDs : List BleDevice)
    (pnp : PnpTable)
    (hpair : (btcAddrsOf btcDs ++ bleAddrsOf bleDs).Pairwise (· ≠ ·))
    (hbound : ∀ a ∈ btcAddrsOf btcDs ++ bleAddrsOf bleDs, a < 16 ^ 12) :
    ∀ x ∈ collectInfo (btcDs.map (fun d => processBtcDevice d pnp)),
      ∀ y ∈ collectInfo (bleDs.map processBleDevice), x.address ≠ y.address := by
  intro x hx y hy
  rcases mem_foldl_collectStep _ [] x hx with h1 | h1
  · simp at h1
  rcases mem_foldl_collectStep _ [] y hy with h2 | h2
  · simp at h2
  rw [List.filterMap_map] at h1 h2
  obtain ⟨d1, hd1, hh1⟩ := List.mem_filterMap.mp h1
  obtain ⟨d2, hd2, hh2⟩ := List.mem_filterMap.mp h2
  obtain ⟨a1, ha1, hxa⟩ := okAddr_processBtc d1 pnp x.address hh1
  have hya : y.address = hexMac d2.bluetoothAddress :=
    okAddr_processBle d2 y.address hh2
  have hm1 : a1 ∈ btcAddrsOf btcDs :=
    List.mem_filterMap.mpr ⟨d1, hd1, by rw [ha1]; rfl⟩
  have hm2 : d2.bluetoothAddress ∈ bleAddrsOf bleDs :=
    List.mem_map_of_mem _ hd2
  have hne : a1 ≠ d2.bluetoothAddress :=
    (List.pairwise_append.mp hpair).2.2 a1 hm1 _ hm2
  have hb1 : a1 < 16 ^ 12 := hbound a1 (List.mem_append.mpr (Or.inl hm1))
  have hb2 : d2.bluetoothAddress < 16 ^ 12 :=
    hbound _ (List.mem_append.mpr (Or.inr hm2))
  rw [hxa, hya]
  exact fun he => hne (hexMac_inj _ _ hb1 hb2 he)

theorem getBluetoothInfo_btc_arm (cd : BtcDevice) (cds : List BtcDevice)
    (attempt : Nat → Except String PnpTable) :
    getBluetoothInfo (cd :: cds) [] attempt =
      match getBtcInfo (cd :: cds) attempt with
      | Except.ok s => Except.ok s
      | Except.error _ => Except.ok [] := rfl

theorem getBluetoothInfo_both_arm (cd : BtcDevice) (cds : List BtcDevice)
    (bd : BleDevice) (bds : List BleDevice)
    (attempt : Nat → Except String PnpTable) :
    getBluetoothInfo (cd :: cds) (bd :: bds) attempt =
      match getBtcInfo (cd :: cds) attempt, getBleInfo (bd :: bds) with
      | Except.ok b, Except.ok l =>
        Except.ok (b ++ l.filter (fun x => decide (x ∉ b)))
      | Except.ok b, Except.error _ => Except.ok b
      | Except.error _, Except.ok l => Except.ok l
      | Except.error be, Except.error le =>
        Except.error ("Failed to get both BTC and BLE info: " ++ be ++ " | " ++ le) := rfl

/-- Claim C6 (amended): every snapshot the builder returns — from the
low-energy path, the classic path, or the combined
classic-plus-low-energy arm of `get_bluetooth_info` — contains no two
structurally equal records (the `HashSet` guarantee); and it contains no
two records with the same address provided the input devices carry
pairwise distinct 48-bit addresses across both transports.  Without that
proviso two input devices sharing an address (differing in another field,
or paired on both transports) yield two records with the same address. -/
theorem c6_builder_guarantees :
    (∀ (btcDs : List BtcDevice) (bleDs : List BleDevice)
      (attempt : Nat → Except String PnpTable) (s : List BluetoothInfo),
      getBluetoothInfo btcDs bleDs attempt = Except.ok s → s.Nodup) ∧
    (∀ (btcDs : List BtcDevice) (bleDs : List BleDevice)
      (attempt : Nat → Except String PnpTable) (s : List BluetoothInfo),
      (btcAddrsOf btcDs ++ bleAddrsOf bleDs).Pairwise (· ≠ ·) →
      (∀ a ∈ btcAddrsOf btcDs ++ bleAddrsOf bleDs, a < 16 ^ 12) →
      getBluetoothInfo btcDs bleDs attempt = Except.ok s →
      uniqueByAddress s) := by
  constructor
  · intro btcDs bleDs attempt s hok
    cases btcDs with
    | nil =>
      cases bleDs with
      | nil => exact Except.noConfusion hok
      | cons bd bds =>
        have h2 : Except.ok (collectInfo ((bd :: bds).map processBleDevice)) =
            Except.ok s := hok
        injection h2 with h2
        rw [← h2]
        exact collectInfo_nodup _
    | cons cd cds =>
      cases bleDs with
      | nil =>
        cases hbtc : getBtcInfo (cd :: cds) attempt with
        | ok sb =>
          obtain ⟨pnp, hpnp, hsb⟩ := getBtcInfo_ok_eq _ _ _ hbtc
          rw [getBluetoothInfo_btc_arm, hbtc] at hok
          injection hok with h2
          rw [← h2, hsb]
          exact collectInfo_nodup _
        | error e =>
          rw [getBluetoothInfo_btc_arm, hbtc] at hok
          injection hok with h2
          rw [← h2]
          exact List.nodup_nil
      | cons bd bds =>
        cases hbtc : getBtcInfo (cd :: cds) attempt with
        | ok sb =>
          obtain ⟨pnp, hpnp, hsb⟩ := getBtcInfo_ok_eq _ _ _ hbtc
          rw [getBluetoothInfo_both_arm, hbtc] at hok
          have h2 : Except.ok (sb ++
              (collectInfo ((bd :: bds).map processBleDevice)).filter
                (fun x => decide (x ∉ sb))) = Except.ok s := hok
          injection h2 with h2
          rw [← h2, hsb]
          exact nodup_union _ _ (by rw [← hsb]; rw [hsb]; exact collectInfo_nodup _)
            (collectInfo_nodup _)
        | error e =>
          rw [getBluetoothInfo_both_arm, hbtc] at hok
          have h2 : Except.ok (collectInfo ((bd :: bds).map processBleDevice)) =
              Except.ok s := hok
          injection h2 with h2
          rw [← h2]
          exact collectInfo_nodup _
  · intro btcDs bleDs attempt s hpair hbound hok
    have hpairB : (btcAddrsOf btcDs).Pairwise (· ≠ ·) :=
      (List.pairwise_append.mp hpair).1
    have hpairL : (bleAddrsOf bleDs).Pairwise (· ≠ ·) :=
      (List.pairwise_append.mp hpair).2.1
    have hboundB : ∀ a ∈ btcAddrsOf btcDs, a < 16 ^ 12 :=
      fun a ha => hbound a (List.mem_append.mpr (Or.inl ha))
    have hboundL : ∀ a ∈ bleAddrsOf bleDs, a < 16 ^ 12 :=
      fun a ha => hbound a (List.mem_append.mpr (Or.inr ha))
    cases btcDs with
    | nil =>
      cases bleDs with
      | nil => exact Except.noConfusion hok
      | cons bd bds =>
        have h2 : Except.ok (collectInfo ((bd :: bds).map processBleDevice)) =
            Except.ok s := hok
        injection h2 with h2
        rw [← h2]
        exact bleCollect_unique (bd :: bds) hpairL hboundL
    | cons cd cds =>
      cases bleDs with
      | nil =>
        cases hbtc : getBtcInfo (cd :: cds) attempt with
        | ok sb =>
          obtain ⟨pnp, hpnp, hsb⟩ := getBtcInfo_ok_eq _ _ _ hbtc
          rw [getBluetoothInfo_btc_arm, hbtc] at hok
          injection hok with h2
          rw [← h2, hsb]
          exact btcCollect_unique (cd :: cds) pnp hpairB hboundB
        | error e =>
          rw [getBluetoothInfo_btc_arm, hbtc] at hok
          injection hok with h2
          rw [← h2]
          exact List.Pairwise.nil
      | cons bd bds =>
        cases hbtc : getBtcInfo (cd :: cds) attempt with
        | ok sb =>
          obtain ⟨pnp, hpnp, hsb⟩ := getBtcInfo_ok_eq _ _ _ hbtc
          rw [getBluetoothInfo_both_arm, hbtc] at hok
          have h2 : Except.ok (sb ++
              (collectInfo ((bd :: bds).map processBleDevice)).filter
                (fun x => decide (x ∉ sb))) = Except.ok s := hok
          injection h2 with h2
          rw [← h2, hsb]
          exact uniqueByAddress_union _ _
            (btcCollect_unique (cd :: cds) pnp hpairB hboundB)
            (bleCollect_unique (bd :: bds) hpairL hboundL)
            (union_cross (cd :: cds) (bd :: bds) pnp hpair hbound)
        | error e =>
          rw [getBluetoothInfo_both_arm, hbtc] at hok
          have h2 : Except.ok (collectInfo ((bd :: bds).map processBleDevice)) =
              Except.ok s := hok
          injection h2 with h2
          rw [← h2]
          exact bleCollect_unique (bd :: bds) hpairL hboundL

/-- Claim C6 witness: the combined builder at one classic device (address
5, matched by the PnP table) and one low-energy device (address 1): the
returned snapshot is duplicate-free and unique by address. -/
theorem c6_witness :
    uniqueByAddress [recC, recP] ∧ ([recC, recP] : List BluetoothInfo).Nodup :=
  ⟨c6_builder_guarantees.2 [btcDevC] [bleDevP] goodAttempt [recC, recP]
      (by decide) (by decide) rfl,
   c6_builder_guarantees.1 [btcDevC] [bleDevP] goodAttempt [recC, recP] rfl⟩

end BlueGauge
